import Mathlib

/-!
Formal model of the zartigl data-preparation scripts.

The repository has two Python scripts:

* `scripts/build_catalog.py` — queries the Copernicus Marine metadata
  provider (`copernicusmarine.describe`) for each configured target and
  emits a catalog of dataset entries (dimension schemas, variable
  metadata, zarr URL).
* `scripts/subset_zarr.py` — opens a remote dataset, keeps the last
  timestep, block-averages latitude/longitude by a factor of 3, downcasts
  to float32 (except time), re-chunks, writes a Zarr v2 store and logs a
  verification summary.

The shallow embedding below translates the scripts' own logic directly.
Numeric metadata values (coordinate minima/maxima/steps, array cell
values) are modelled as exact rationals `ℚ`; Python `int()` truncation is
`pyInt`.  Fallible Python operations (provider exceptions, `IndexError`
from positional access, `TypeError` from arithmetic on `None`) are
modelled with `Except PyError`.  External library calls (`xarray.coarsen
... .mean`, `.sel`, dask chunk normalization, the zarr read-back) are
modelled from the spec's description of their semantics, marked in their
doc comments.
-/

namespace Zartigl

/-- Python-level runtime faults that the scripts can raise: positional
indexing of an empty list, arithmetic on `None`, and any exception coming
out of the remote provider. -/
inductive PyError
  | indexError
  | typeError
  | providerError (msg : String)
deriving DecidableEq, Repr

/-- Python `xs[0]`: the head of a list, raising `IndexError` when empty. -/
def pyIndex0 {α : Type} (xs : List α) : Except PyError α :=
  match xs with
  | [] => .error .indexError
  | x :: _ => .ok x

/-- Python `int()` applied to an exact rational: truncation toward zero. -/
def pyInt (q : ℚ) : ℤ := if 0 ≤ q then ⌊q⌋ else ⌈q⌉

/-- Python `dict` insertion `d[k] = v`: overwriting an existing key keeps
its original position, a new key is appended. -/
def dictInsert {α : Type} (k : String) (v : α) (d : List (String × α)) :
    List (String × α) :=
  if (d.map Prod.fst).contains k then
    d.map (fun p => if p.1 = k then (k, v) else p)
  else d ++ [(k, v)]

/-! ## Provider metadata hierarchy (input of `build_catalog.py`)

The `copernicusmarine.describe` response: product → dataset → version →
part → service, each service carrying variables with coordinate
metadata.  All numeric fields are optional, mirroring the provider's
dataclasses. -/

/-- One coordinate's metadata as reported by the provider (field names
follow `build_catalog.py`). -/
structure Coord where
  coordinate_id : String
  axis : String
  values : Option (List ℚ)
  minimum_value : Option ℚ
  maximum_value : Option ℚ
  step : Option ℚ
  chunking_length : Option ℕ
  coordinate_unit : Option String
deriving DecidableEq, Repr

/-- One variable as reported by the provider. -/
structure CMVariable where
  short_name : String
  standard_name : String
  units : String
  coordinates : List Coord
deriving DecidableEq, Repr

/-- One delivery variant ("service") of a dataset part. -/
structure CMService where
  service_name : String
  service_format : String
  uri : String
  «variables» : List CMVariable
deriving DecidableEq, Repr

/-- One spatial/temporal part of a dataset version. -/
structure CMPart where
  services : List CMService
deriving DecidableEq, Repr

/-- One version of a dataset. -/
structure CMVersion where
  parts : List CMPart
deriving DecidableEq, Repr

/-- One dataset of a product. -/
structure CMDataset where
  versions : List CMVersion
deriving DecidableEq, Repr

/-- One product of the describe response. -/
structure CMProduct where
  product_id : String
  datasets : List CMDataset
deriving DecidableEq, Repr

/-- The whole describe response. -/
structure CMCatalog where
  products : List CMProduct
deriving DecidableEq, Repr

/-! ## Catalog output data model -/

/-- One configured target (an element of `TARGETS` in `build_catalog.py`). -/
structure Target where
  dataset_id : String
  label : String
  «variables» : List String
  preferred_service : String
deriving DecidableEq, Repr

/-- Per-variable metadata recorded in a catalog entry. -/
structure VarInfo where
  standard_name : String
  units : String
deriving DecidableEq, Repr

/-- One emitted dimension descriptor (`dim` dict in `build_catalog.py`,
lines 81-105).  `Option` distinguishes a key that is present from one
that was never set; `size` is always present in the no-values branch but
may be `none` (Python `None`, JSON `null`). -/
structure Dim where
  axis : String
  values : Option (List ℚ)
  size : Option ℤ
  min : Option ℚ
  max : Option ℚ
  step : Option ℚ
  chunk_size : Option ℕ
  units : Option String
deriving DecidableEq, Repr

/-- One catalog entry (the dict returned at `build_catalog.py` line 107). -/
structure Entry where
  id : String
  product : String
  label : String
  zarr_url : String
  «variables» : List (String × VarInfo)
  dimensions : List (String × Dim)
deriving DecidableEq, Repr

/-- The emitted catalog document. -/
structure Catalog where
  generated : String
  datasets : List Entry
deriving DecidableEq, Repr

/-! ## `build_entry` and the catalog build loop -/

/-- Python truthiness filter `if coord.coordinate_unit:` — both `None`
and the empty string are falsy (line 102). -/
def pyUnit (c : Coord) : Option String :=
  match c.coordinate_unit with
  | none => none
  | some u => if u = "" then none else some u

/-- The `size` computation of `build_catalog.py` lines 88-92:
`int((max - min) / step) + 1 if coord.step else None`.  The guard is
Python truthiness, so a step of `0` takes the `None` branch; when the
step is truthy but `minimum_value` or `maximum_value` is `None`, the
subtraction raises `TypeError`. -/
def dimSize (c : Coord) : Except PyError (Option ℤ) :=
  match c.step with
  | none => .ok none
  | some s =>
    if s = 0 then .ok none
    else
      match c.maximum_value, c.minimum_value with
      | some mx, some mn => .ok (some (pyInt ((mx - mn) / s) + 1))
      | _, _ => .error .typeError

/-- Building one dimension descriptor (`build_catalog.py` lines 81-103):
the explicit-values branch records the values with their length as size
and no range fields; the other branch records the computed size and
exactly the range fields the provider reported (`is not None` checks). -/
def buildDim (c : Coord) : Except PyError Dim :=
  match c.values with
  | some vs =>
    .ok { axis := c.axis, values := some vs, size := some (vs.length : ℤ),
          min := none, max := none, step := none,
          chunk_size := c.chunking_length, units := pyUnit c }
  | none =>
    match dimSize c with
    | .error e => .error e
    | .ok sz =>
      .ok { axis := c.axis, values := none, size := sz,
            min := c.minimum_value, max := c.maximum_value, step := c.step,
            chunk_size := c.chunking_length, units := pyUnit c }

/-- The dimensions dict of `build_catalog.py` lines 80-105, built from the
coordinates of the representative variable. -/
def buildDims (cs : List Coord) (acc : List (String × Dim)) :
    Except PyError (List (String × Dim)) :=
  match cs with
  | [] => .ok acc
  | c :: rest =>
    match buildDim c with
    | .error e => .error e
    | .ok dim => buildDims rest (dictInsert c.coordinate_id dim acc)

/-- The variables dict of `build_catalog.py` lines 70-76: keep the
reported variables whose short name is requested. -/
def buildVars (t : Target) (svc : CMService) : List (String × VarInfo) :=
  svc.«variables».foldl
    (fun d v =>
      if t.«variables».contains v.short_name then
        dictInsert v.short_name ⟨v.standard_name, v.units⟩ d
      else d)
    []

/-- `build_entry` (`build_catalog.py` lines 38-114).  `describe` is the
remote metadata provider; a provider exception propagates (there is no
handler in the script).  Empty products yield `none` (absent); the
positional descents `datasets[0]`, `versions[0]`, `parts[0]` and
`svc.variables[0]` raise `IndexError` on empty lists; a missing or
non-zarr preferred service yields `none`. -/
def build_entry (describe : String → Except PyError CMCatalog) (t : Target) :
    Except PyError (Option Entry) :=
  match describe t.dataset_id with
  | .error e => .error e
  | .ok cat =>
    match cat.products with
    | [] => .ok none
    | prod :: _ =>
      match pyIndex0 prod.datasets with
      | .error e => .error e
      | .ok ds =>
      match pyIndex0 ds.versions with
      | .error e => .error e
      | .ok ver =>
      match pyIndex0 ver.parts with
      | .error e => .error e
      | .ok part =>
        match part.services.find? (fun s => s.service_name == t.preferred_service) with
        | none => .ok none
        | some svc =>
          if svc.service_format = "zarr" then
            match pyIndex0 svc.«variables» with
            | .error e => .error e
            | .ok ref_var =>
              match buildDims ref_var.coordinates [] with
              | .error e => .error e
              | .ok dims =>
                .ok (some { id := t.dataset_id, product := prod.product_id,
                            label := t.label, zarr_url := svc.uri,
                            «variables» := buildVars t svc, dimensions := dims })
          else .ok none

/-- The entry loop of `main` (`build_catalog.py` lines 120-124): each
target's entry is appended when non-absent; an exception from
`build_entry` is not caught and aborts the loop. -/
def buildEntries (describe : String → Except PyError CMCatalog) :
    List Target → Except PyError (List Entry)
  | [] => .ok []
  | t :: rest =>
    match build_entry describe t with
    | .error e => .error e
    | .ok none => buildEntries describe rest
    | .ok (some entry) =>
      match buildEntries describe rest with
      | .error e => .error e
      | .ok es => .ok (entry :: es)

/-- `main` of `build_catalog.py` (lines 117-133) as a function of the
provider and the timestamp: the catalog document with the surviving
entries in configured order. -/
def build_catalog (describe : String → Except PyError CMCatalog)
    (now : String) (targets : List Target) : Except PyError Catalog :=
  match buildEntries describe targets with
  | .error e => .error e
  | .ok es => .ok { generated := now, datasets := es }

/-- A descriptor "populates the explicit value list" when its `values`
key is set (spec §3, DimensionDescriptor invariant). -/
def hasValues (d : Dim) : Bool := d.values.isSome

/-- A descriptor "populates the regular range" when any of `min`, `max`,
`step` is set (spec §3, DimensionDescriptor invariant). -/
def hasRange (d : Dim) : Bool := d.min.isSome || d.max.isSome || d.step.isSome

/-! ## The transcoder (`subset_zarr.py`)

The dataset handle returned by `copernicusmarine.open_dataset` is
modelled with exact rational cell values: `time` is the time coordinate
(datetimes as numbers, only their order matters), the data variables
`uo`/`vo` carry one latitude × longitude grid per timestep (the depth
axis is already restricted to the `[0.0, 0.5]` band by the provider and
is not touched by any later stage).  Array dtypes are tracked as tags. -/

/-- Array element types that occur in the pipeline. -/
inductive Dtype
  | float32
  | float64
  | datetime64
deriving DecidableEq, Repr

/-- One data variable: a dtype and one lat × lon grid per timestep. -/
structure DataVar where
  dtype : Dtype
  slices : List (List (List ℚ))
deriving DecidableEq, Repr

/-- The in-memory dataset between pipeline stages. -/
structure XDataset where
  time : List ℚ
  timeDtype : Dtype
  depth : List ℚ
  depthDtype : Dtype
  latitude : List ℚ
  latitudeDtype : Dtype
  longitude : List ℚ
  longitudeDtype : Dtype
  uo : DataVar
  vo : DataVar
deriving DecidableEq, Repr

/-- The variable list of `subset_zarr.py` line 28. -/
def VARIABLES : List String := ["uo", "vo"]

/-- The array names a faithful store write produces: the requested
variables plus the surviving coordinates (spec §8, destination
replacement property). -/
def expectedArrays : List String :=
  VARIABLES ++ ["time", "depth", "latitude", "longitude"]

/-- Modelled from the spec: `xarray` selection-by-value used at
`subset_zarr.py` line 43 — `ds.sel(time=[lt])` keeps exactly the
positions whose time coordinate equals the requested label, in order. -/
def selSlices {α : Type} (times : List ℚ) (lt : ℚ) (slices : List α) : List α :=
  ((times.zip slices).filter (fun p => decide (p.1 = lt))).map Prod.snd

/-- Lines 42-43 of `subset_zarr.py`: `latest_time = ds.time.values[-1]`
(an `IndexError` on an empty time axis) followed by
`ds = ds.sel(time=[latest_time])`.  The script selects the *last* stored
time value, whatever the ordering of the axis. -/
def selectLatest (ds : XDataset) : Except PyError XDataset :=
  match ds.time.getLast? with
  | none => .error .indexError
  | some lt =>
    .ok { ds with
          time := ds.time.filter (fun x => decide (x = lt)),
          uo := { ds.uo with slices := selSlices ds.time lt ds.uo.slices },
          vo := { ds.vo with slices := selSlices ds.time lt ds.vo.slices } }

/-- Modelled from the spec: one axis of `coarsen(boundary="trim").mean()`
(spec §4.2 step 3) — contiguous blocks of `k` cells, the trailing block
that does not divide evenly is dropped, each output cell is the
arithmetic mean of its block. -/
def coarsen1D (k : ℕ) (xs : List ℚ) : List ℚ :=
  (List.range (xs.length / k)).map
    (fun i => ((xs.drop (i * k)).take k).sum / (k : ℚ))

/-- The k × k block of a grid at block position (i, j). -/
def block2D (k i j : ℕ) (g : List (List ℚ)) : List ℚ :=
  (((g.drop (i * k)).take k).map (fun row => (row.drop (j * k)).take k)).flatten

/-- Width of a rectangular grid (length of its first row). -/
def gridWidth (g : List (List ℚ)) : ℕ := (g.headD []).length

/-- Modelled from the spec: two-axis `coarsen(boundary="trim").mean()` on
one lat × lon grid — each output cell is the arithmetic mean of its
k × k block, trailing partial blocks dropped on both axes. -/
def coarsen2D (k : ℕ) (g : List (List ℚ)) : List (List ℚ) :=
  (List.range (g.length / k)).map
    (fun i => (List.range (gridWidth g / k)).map
      (fun j => (block2D k i j g).sum / ((block2D k i j g).length : ℚ)))

/-- Lines 53-58 of `subset_zarr.py`: block-average latitude and longitude
by the coarsening factor.  The latitude and longitude coordinate arrays
are reduced with the same mean (the `xarray` default for coordinates);
time and depth are untouched; dtypes are unchanged by averaging. -/
def coarsenDS (k : ℕ) (ds : XDataset) : XDataset :=
  { ds with
    latitude := coarsen1D k ds.latitude,
    longitude := coarsen1D k ds.longitude,
    uo := { ds.uo with slices := ds.uo.slices.map (coarsen2D k) },
    vo := { ds.vo with slices := ds.vo.slices.map (coarsen2D k) } }

/-- Lines 62-69 of `subset_zarr.py`: cast `uo`, `vo`, `latitude`,
`longitude` and `depth` to float32; `time` is not cast.  The numeric
effect of the cast is an abstract rounding function `round32` (exact
float32 rounding lives outside the rational model); what the script
fixes is *which* arrays are cast and that the cast is applied to the
already-averaged values. -/
def downcast (round32 : ℚ → ℚ) (ds : XDataset) : XDataset :=
  { ds with
    uo := { dtype := .float32,
            slices := ds.uo.slices.map (fun g => g.map (fun row => row.map round32)) },
    vo := { dtype := .float32,
            slices := ds.vo.slices.map (fun g => g.map (fun row => row.map round32)) },
    latitude := ds.latitude.map round32, latitudeDtype := .float32,
    longitude := ds.longitude.map round32, longitudeDtype := .float32,
    depth := ds.depth.map round32, depthDtype := .float32 }

/-- The in-memory stages of `main` in `subset_zarr.py` in the order the
script runs them: select the last timestep (lines 42-43), coarsen by the
hard-coded factor 3 (lines 53-58), downcast (lines 62-69). -/
def transcode (round32 : ℚ → ℚ) (ds : XDataset) : Except PyError XDataset :=
  match selectLatest ds with
  | .error e => .error e
  | .ok ds1 => .ok (downcast round32 (coarsenDS 3 ds1))

/-! ## Chunk layout (`subset_zarr.py` lines 79-101) -/

/-- The configured per-axis target chunk sizes (line 79). -/
def chunk_sizes : List (String × ℕ) :=
  [("time", 1), ("depth", 1), ("latitude", 170), ("longitude", 240)]

/-- Python `chunk_sizes.get(d, default)` without the default: the
configured chunk size for a dimension name, when one is configured. -/
def chunkLookup (d : String) : Option ℕ :=
  (chunk_sizes.find? (fun p => p.1 == d)).map Prod.snd

/-- One entry of the explicit encoding tuple (line 98-100):
`chunk_sizes.get(d, s)` for a dimension named `d` of extent `s` — the
raw configured value when the dimension is configured, the full extent
otherwise. -/
def encChunkOf (d : String) (s : ℕ) : ℕ := (chunkLookup d).getD s

/-- The explicit per-variable encoding chunk tuple of lines 98-100. -/
def encChunks (dims : List String) (shape : List ℕ) : List ℕ :=
  (dims.zip shape).map (fun p => encChunkOf p.1 p.2)

/-- Modelled from the spec: the chunk size the lazy re-chunk at line 85
(`ds.chunk(chunk_sizes)`) actually gives an axis — dask normalizes a
requested chunk to the axis extent when it exceeds it (spec §4.2 step 6,
"clipped to the array's actual extent along each axis"). -/
def daskChunkOf (d : String) (s : ℕ) : ℕ := min ((chunkLookup d).getD s) s

/-- The per-axis chunk layout produced by the line 85 re-chunk. -/
def daskChunks (dims : List String) (shape : List ℕ) : List ℕ :=
  (dims.zip shape).map (fun p => daskChunkOf p.1 p.2)

/-! ## Store verification (`subset_zarr.py` lines 110-120) -/

/-- The written store as the verification step sees it: its top-level
array names and the sizes of the files under the destination. -/
structure ZStore where
  arrayNames : List String
  fileSizes : List ℕ
deriving DecidableEq, Repr

/-- Outcome of the verification phase of a run. -/
inductive RunReport
  | success (totalBytes : ℕ) (names : List String)
  | failure (msg : String)
deriving DecidableEq, Repr

/-- Lines 110-120 of `subset_zarr.py`: reopen the store, sum the byte
sizes, list the array names and print them.  The script performs no
comparison against an expected size or variable set and has no failure
path; it always reaches `print("Done!")`. -/
def verifyPhase (st : ZStore) : RunReport :=
  .success st.fileSizes.sum st.arrayNames

/-! ## Concrete fixtures used by witnesses and counterexamples -/

/-- A coordinate whose provider-reported step is `0`. -/
def c1zeroCoord : Coord :=
  { coordinate_id := "elevation", axis := "z", values := none,
    minimum_value := some 0, maximum_value := some 10, step := some 0,
    chunking_length := none, coordinate_unit := none }

/-- A regular coordinate: `min = 0`, `max = 10`, `step = 2`. -/
def c1regCoord : Coord :=
  { coordinate_id := "latitude", axis := "y", values := none,
    minimum_value := some 0, maximum_value := some 10, step := some 2,
    chunking_length := none, coordinate_unit := none }

/-! ## C1 -/

/-- C1 (counterexample to the claim as stated): for a coordinate whose
provider-reported step is `0`, `build_entry` leaves `size` null even
though a step *is* reported, because the guard at line 90 of
`build_catalog.py` is Python truthiness (`if coord.step`), not a
presence check.  This refutes "leaves size null only when no step is
reported". -/
theorem c1_counterexample :
    (buildDim c1zeroCoord).map Dim.size = .ok none
    ∧ c1zeroCoord.step = some 0 := ⟨rfl, rfl⟩

/-- C1 (amended): for a coordinate with no explicit value list and with
reported min and max, `build_entry` sets the emitted size to the Python
`int()` truncation of `(max - min) / step` plus 1 whenever a *nonzero*
step is present, and leaves size null when the step is absent *or zero*;
the truncation agrees with the claimed `floor` whenever the quotient is
nonnegative (in particular whenever `min ≤ max` and `step > 0`). -/
theorem c1_size_formula (c : Coord) (s mn mx : ℚ)
    (hv : c.values = none) (hmn : c.minimum_value = some mn)
    (hmx : c.maximum_value = some mx) :
    (c.step = some s → s ≠ 0 →
      (buildDim c).map Dim.size = .ok (some (pyInt ((mx - mn) / s) + 1)))
    ∧ (c.step = none ∨ c.step = some 0 → (buildDim c).map Dim.size = .ok none)
    ∧ (0 ≤ (mx - mn) / s → pyInt ((mx - mn) / s) = ⌊(mx - mn) / s⌋) := by
  refine ⟨?_, ?_, ?_⟩
  · intro hs hsne
    simp [buildDim, dimSize, Except.map, hv, hs, hmn, hmx, hsne]
  · rintro (h | h) <;> simp [buildDim, dimSize, Except.map, hv, h]
  · intro hq
    simp [pyInt, hq]

/-- C1 witness: the amended theorem applied to the regular coordinate
`min = 0`, `max = 10`, `step = 2`. -/
theorem c1_witness :
    (buildDim c1regCoord).map Dim.size = .ok (some (pyInt ((10 - 0) / 2) + 1))
    ∧ pyInt (((10 : ℚ) - 0) / 2) = ⌊((10 : ℚ) - 0) / 2⌋ :=
  ⟨(c1_size_formula c1regCoord 2 0 10 rfl rfl rfl).1 rfl (by norm_num),
   (c1_size_formula c1regCoord 2 0 10 rfl rfl rfl).2.2 (by norm_num)⟩

/-! ## C9 -/

/-- A coordinate for which the provider reports neither explicit values
nor any of min/max/step. -/
def c9emptyCoord : Coord :=
  { coordinate_id := "sigma", axis := "s", values := none,
    minimum_value := none, maximum_value := none, step := none,
    chunking_length := none, coordinate_unit := none }

/-- The descriptor `build_entry` emits for `c9emptyCoord`. -/
def c9emptyDim : Dim :=
  { axis := "s", values := none, size := none, min := none, max := none,
    step := none, chunk_size := none, units := none }

/-- C9 (counterexample to the claim as stated): when the provider
reports neither explicit values nor any range field, the emitted
descriptor populates *neither* alternative, refuting "populates exactly
one of {explicit value list, regular min/max/step range}". -/
theorem c9_counterexample :
    buildDim c9emptyCoord = .ok c9emptyDim
    ∧ hasValues c9emptyDim = false ∧ hasRange c9emptyDim = false :=
  ⟨rfl, rfl, rfl⟩

/-- C9 (amended): every emitted descriptor populates *at most* one of
{explicit value list, min/max/step range}: the values branch records the
values with size equal to their length and no range fields; otherwise
the descriptor carries no values and exactly the range fields the
provider reported (possibly none of them). -/
theorem c9_descriptor_shape (c : Coord) (d : Dim) (h : buildDim c = .ok d) :
    ¬(hasValues d = true ∧ hasRange d = true)
    ∧ (∀ vs, c.values = some vs →
        d.values = some vs ∧ d.size = some (vs.length : ℤ)
        ∧ d.min = none ∧ d.max = none ∧ d.step = none)
    ∧ (c.values = none →
        d.values = none ∧ d.min = c.minimum_value
        ∧ d.max = c.maximum_value ∧ d.step = c.step) := by
  cases hv : c.values with
  | some vs =>
    simp only [buildDim, hv] at h
    injection h with h
    subst h
    refine ⟨by simp [hasValues, hasRange], ?_, ?_⟩
    · intro vs2 hvs2
      injection hvs2 with hvs2
      subst hvs2
      exact ⟨rfl, rfl, rfl, rfl, rfl⟩
    · intro hnone
      cases hnone
  | none =>
    simp only [buildDim, hv] at h
    cases hds : dimSize c with
    | error e => rw [hds] at h; cases h
    | ok sz =>
      rw [hds] at h
      injection h with h
      subst h
      refine ⟨by simp [hasValues], ?_, ?_⟩
      · intro vs2 hvs2
        cases hvs2
      · intro _
        exact ⟨rfl, rfl, rfl, rfl⟩

/-- A coordinate with explicit values, native chunk length and units. -/
def c9valsCoord : Coord :=
  { coordinate_id := "depth", axis := "z", values := some [1, 2, 3],
    minimum_value := none, maximum_value := none, step := none,
    chunking_length := some 1, coordinate_unit := some "m" }

/-- The descriptor `build_entry` emits for `c9valsCoord`. -/
def c9valsDim : Dim :=
  { axis := "z", values := some [1, 2, 3], size := some 3, min := none,
    max := none, step := none, chunk_size := some 1, units := some "m" }

/-- C9 witness: the amended theorem applied to a coordinate with an
explicit value list of length 3. -/
theorem c9_witness :
    ¬(hasValues c9valsDim = true ∧ hasRange c9valsDim = true)
    ∧ (c9valsDim.values = some [1, 2, 3]
       ∧ c9valsDim.size = some (([1, 2, 3] : List ℚ).length : ℤ)
       ∧ c9valsDim.min = none ∧ c9valsDim.max = none ∧ c9valsDim.step = none) :=
  ⟨(c9_descriptor_shape c9valsCoord c9valsDim rfl).1,
   (c9_descriptor_shape c9valsCoord c9valsDim rfl).2.1 [1, 2, 3] rfl⟩

/-! ## C10 -/

/-- C10 (confirmed): `build_entry` guards only the empty-products case
with `absent`; every deeper empty level of the hierarchy — no datasets
under the first product, no versions under the first dataset, no parts
under the first version, or zero variables under the matched zarr
service — makes the positional access raise an uncaught `IndexError`
instead of yielding absent. -/
theorem c10_totality (describe : String → Except PyError CMCatalog)
    (t : Target) (cat : CMCatalog) (hd : describe t.dataset_id = .ok cat) :
    (cat.products = [] → build_entry describe t = .ok none)
    ∧ (∀ p ps, cat.products = p :: ps → p.datasets = [] →
        build_entry describe t = .error .indexError)
    ∧ (∀ p ps d dt, cat.products = p :: ps → p.datasets = d :: dt →
        d.versions = [] → build_entry describe t = .error .indexError)
    ∧ (∀ p ps d dt v vt, cat.products = p :: ps → p.datasets = d :: dt →
        d.versions = v :: vt → v.parts = [] →
        build_entry describe t = .error .indexError)
    ∧ (∀ p ps d dt v vt pa pt svc, cat.products = p :: ps → p.datasets = d :: dt →
        d.versions = v :: vt → v.parts = pa :: pt →
        pa.services.find? (fun s => s.service_name == t.preferred_service) = some svc →
        svc.service_format = "zarr" → svc.«variables» = [] →
        build_entry describe t = .error .indexError) := by
  refine ⟨?_, ?_, ?_, ?_, ?_⟩
  · intro hp
    simp [build_entry, hd, hp]
  · intro p ps hp hds
    simp [build_entry, hd, hp, pyIndex0, hds]
  · intro p ps d dt hp hds hv
    simp [build_entry, hd, hp, pyIndex0, hds, hv]
  · intro p ps d dt v vt hp hds hv hpa
    simp [build_entry, hd, hp, pyIndex0, hds, hv, hpa]
  · intro p ps d dt v vt pa pt svc hp hds hv hpa hfind hz hvars
    simp [build_entry, hd, hp, pyIndex0, hds, hv, hpa, hfind, hz, hvars]

/-- A zarr service of the preferred name reporting zero variables. -/
def c10svc : CMService :=
  { service_name := "arco-geo-series", service_format := "zarr",
    uri := "s3://x", «variables» := [] }

/-- Describe response with no products. -/
def c10cat0 : CMCatalog := { products := [] }

/-- Describe response whose first product has no datasets. -/
def c10cat1 : CMCatalog := { products := [{ product_id := "P", datasets := [] }] }

/-- Describe response whose first dataset has no versions. -/
def c10cat2 : CMCatalog :=
  { products := [{ product_id := "P", datasets := [{ versions := [] }] }] }

/-- Describe response whose first version has no parts. -/
def c10cat3 : CMCatalog :=
  { products := [{ product_id := "P",
                   datasets := [{ versions := [{ parts := [] }] }] }] }

/-- Describe response whose matched zarr service has zero variables. -/
def c10cat4 : CMCatalog :=
  { products := [{ product_id := "P",
                   datasets := [{ versions := [{ parts := [{ services := [c10svc] }] }] }] }] }

/-- A provider serving the five degenerate hierarchies above. -/
def c10describe : String → Except PyError CMCatalog := fun i =>
  if i = "t0" then .ok c10cat0
  else if i = "t1" then .ok c10cat1
  else if i = "t2" then .ok c10cat2
  else if i = "t3" then .ok c10cat3
  else .ok c10cat4

/-- A target keyed by dataset id. -/
def c10target (i : String) : Target :=
  { dataset_id := i, label := "L", «variables» := ["uo"],
    preferred_service := "arco-geo-series" }

/-- C10 witness: the five cases of the theorem at concrete degenerate
hierarchies. -/
theorem c10_witness :
    build_entry c10describe (c10target "t0") = .ok none
    ∧ build_entry c10describe (c10target "t1") = .error .indexError
    ∧ build_entry c10describe (c10target "t2") = .error .indexError
    ∧ build_entry c10describe (c10target "t3") = .error .indexError
    ∧ build_entry c10describe (c10target "t4") = .error .indexError :=
  ⟨(c10_totality c10describe (c10target "t0") c10cat0 rfl).1 rfl,
   (c10_totality c10describe (c10target "t1") c10cat1 rfl).2.1 _ _ rfl rfl,
   (c10_totality c10describe (c10target "t2") c10cat2 rfl).2.2.1 _ _ _ _ rfl rfl rfl,
   (c10_totality c10describe (c10target "t3") c10cat3 rfl).2.2.2.1 _ _ _ _ _ _
     rfl rfl rfl rfl,
   (c10_totality c10describe (c10target "t4") c10cat4 rfl).2.2.2.2 _ _ _ _ _ _ _ _ _
     rfl rfl rfl rfl rfl rfl rfl⟩

/-! ## C7 -/

/-- A target whose `build_entry` yields absent contributes nothing to the
entry loop, wherever it sits in the target list. -/
theorem buildEntries_skip (describe : String → Except PyError CMCatalog)
    (t : Target) (h : build_entry describe t = .ok none)
    (ts1 ts2 : List Target) :
    buildEntries describe (ts1 ++ t :: ts2) = buildEntries describe (ts1 ++ ts2) := by
  induction ts1 with
  | nil => simp [buildEntries, h]
  | cons a rest ih =>
    cases hae : build_entry describe a with
    | error e => simp [buildEntries, hae]
    | ok o =>
      cases o with
      | none => simp [buildEntries, hae, ih]
      | some entry => simp [buildEntries, hae, ih]

/-- C7 (confirmed): when the first delivery part has no service named
`target.preferred_service`, or the matching service's format is not
"zarr", `build_entry` returns absent, and `build_catalog` over any
target list produces the same catalog with that target removed — the
other entries and their order are untouched. -/
theorem c7_absent_service (describe : String → Except PyError CMCatalog)
    (t : Target) (cat : CMCatalog) (p : CMProduct) (ps : List CMProduct)
    (d : CMDataset) (dt : List CMDataset) (v : CMVersion) (vt : List CMVersion)
    (pa : CMPart) (pt : List CMPart)
    (hd : describe t.dataset_id = .ok cat)
    (hp : cat.products = p :: ps) (hds : p.datasets = d :: dt)
    (hv : d.versions = v :: vt) (hpa : v.parts = pa :: pt)
    (hsvc : ∀ svc,
      pa.services.find? (fun s => s.service_name == t.preferred_service) = some svc →
      svc.service_format ≠ "zarr") :
    build_entry describe t = .ok none
    ∧ ∀ now ts1 ts2, build_catalog describe now (ts1 ++ t :: ts2)
        = build_catalog describe now (ts1 ++ ts2) := by
  have habs : build_entry describe t = .ok none := by
    cases hfind : pa.services.find? (fun s => s.service_name == t.preferred_service) with
    | none => simp [build_entry, hd, hp, pyIndex0, hds, hv, hpa, hfind]
    | some svc =>
      have hz := hsvc svc hfind
      simp [build_entry, hd, hp, pyIndex0, hds, hv, hpa, hfind, hz]
  refine ⟨habs, fun now ts1 ts2 => ?_⟩
  unfold build_catalog
  rw [buildEntries_skip describe t habs ts1 ts2]

/-- A part offering only a service with a non-preferred name. -/
def c7part : CMPart :=
  { services := [{ service_name := "static-arco", service_format := "zarr",
                   uri := "s3://y", «variables» := [] }] }

/-- Describe response carrying `c7part`. -/
def c7cat : CMCatalog :=
  { products := [{ product_id := "P",
                   datasets := [{ versions := [{ parts := [c7part] }] }] }] }

/-- A provider always returning `c7cat`. -/
def c7describe : String → Except PyError CMCatalog := fun _ => .ok c7cat

/-- A target preferring the service name `c7part` does not offer. -/
def c7target : Target :=
  { dataset_id := "ds", label := "L", «variables» := ["uo"],
    preferred_service := "arco-geo-series" }

/-- C7 witness: the theorem at a concrete part offering no service of
the preferred name. -/
theorem c7_witness :
    build_entry c7describe c7target = .ok none
    ∧ build_catalog c7describe "now" [c7target] = build_catalog c7describe "now" [] :=
  ⟨(c7_absent_service c7describe c7target c7cat _ _ _ _ _ _ _ _
      rfl rfl rfl rfl rfl (fun _ h => Option.noConfusion h)).1,
   (c7_absent_service c7describe c7target c7cat _ _ _ _ _ _ _ _
      rfl rfl rfl rfl rfl (fun _ h => Option.noConfusion h)).2 "now" [] []⟩

/-! ## C3 -/

/-- C3 (amended): a provider exception inside `build_entry` is not
caught anywhere — it propagates out of the per-target loop and aborts
the whole catalog build, discarding all remaining targets. -/
theorem c3_provider_fault_aborts (describe : String → Except PyError CMCatalog)
    (t : Target) (ts : List Target) (e : PyError) (now : String)
    (h : describe t.dataset_id = .error e) :
    build_entry describe t = .error e
    ∧ build_catalog describe now (t :: ts) = .error e := by
  have h1 : build_entry describe t = .error e := by simp [build_entry, h]
  exact ⟨h1, by simp [build_catalog, buildEntries, h1]⟩

/-- A healthy time coordinate with one explicit value. -/
def c3okCoord : Coord :=
  { coordinate_id := "time", axis := "t", values := some [0],
    minimum_value := none, maximum_value := none, step := none,
    chunking_length := some 1, coordinate_unit := none }

/-- A healthy zarr service for the `good` dataset. -/
def c3svc : CMService :=
  { service_name := "arco-geo-series", service_format := "zarr", uri := "s3://good",
    «variables» := [{ short_name := "uo", standard_name := "sea_water_x_velocity",
                      units := "m/s", coordinates := [c3okCoord] }] }

/-- Describe response for the `good` dataset. -/
def c3cat : CMCatalog :=
  { products := [{ product_id := "GLOBAL",
                   datasets := [{ versions := [{ parts := [{ services := [c3svc] }] }] }] }] }

/-- A provider raising on dataset id `bad` and answering for all
others. -/
def c3describe : String → Except PyError CMCatalog := fun i =>
  if i = "bad" then .error (.providerError "network failure") else .ok c3cat

/-- The target whose provider query raises. -/
def c3badTarget : Target :=
  { dataset_id := "bad", label := "B", «variables» := ["uo"],
    preferred_service := "arco-geo-series" }

/-- A target that would succeed on its own. -/
def c3goodTarget : Target :=
  { dataset_id := "good", label := "G", «variables» := ["uo"],
    preferred_service := "arco-geo-series" }

/-- The entry `build_entry` produces for `c3goodTarget` alone. -/
def c3goodEntry : Entry :=
  { id := "good", product := "GLOBAL", label := "G", zarr_url := "s3://good",
    «variables» := [("uo", { standard_name := "sea_water_x_velocity", units := "m/s" })],
    dimensions := [("time", { axis := "t", values := some [0], size := some 1,
                              min := none, max := none, step := none,
                              chunk_size := some 1, units := none })] }

/-- C3 (counterexample to the claim as stated): with two targets where
the provider raises on the first, the whole build aborts with the
provider's exception — the second target, which on its own yields a
complete entry, is never included.  There is no per-target catch in
`main` (`build_catalog.py` lines 120-124). -/
theorem c3_counterexample :
    build_catalog c3describe "now" [c3badTarget, c3goodTarget]
      = .error (.providerError "network failure")
    ∧ build_entry c3describe c3goodTarget = .ok (some c3goodEntry) := ⟨rfl, rfl⟩

/-- C3 witness: the amended theorem at the concrete raising provider. -/
theorem c3_witness :
    build_entry c3describe c3badTarget = .error (.providerError "network failure")
    ∧ build_catalog c3describe "now" [c3badTarget, c3goodTarget]
        = .error (.providerError "network failure") :=
  c3_provider_fault_aborts c3describe c3badTarget [c3goodTarget]
    (.providerError "network failure") "now" rfl

/-! ## C2 -/

/-- A written store whose array set bears no relation to the expected
variable/coordinate set. -/
def c2store : ZStore := { arrayNames := ["bogus"], fileSizes := [7] }

/-- C2 (counterexample to the claim as stated): the verification step
reports success on a store whose top-level array set deviates from the
expected variable/coordinate set — nothing in `subset_zarr.py` lines
110-120 compares the measured names or byte size to an expectation. -/
theorem c2_counterexample :
    verifyPhase c2store = .success 7 ["bogus"]
    ∧ "bogus" ∈ c2store.arrayNames ∧ "bogus" ∉ expectedArrays :=
  ⟨rfl, by decide, by decide⟩

/-- C2 (amended): the verification step only measures and logs — it
returns success carrying the summed byte size and the store's array
names for every store, never a failure. -/
theorem c2_verify_logs_only (st : ZStore) :
    verifyPhase st = .success st.fileSizes.sum st.arrayNames := rfl

/-! ## C4 -/

/-- In a strictly sorted list, filtering for the last element keeps
exactly that element, and it bounds every member from above. -/
theorem sorted_getLast_max {l : List ℚ} {lt : ℚ}
    (hs : l.Sorted (· < ·)) (h : l.getLast? = some lt) :
    l.filter (fun x => decide (x = lt)) = [lt] ∧ ∀ x ∈ l, x ≤ lt := by
  induction l with
  | nil => cases h
  | cons a t ih =>
    cases t with
    | nil =>
      simp only [List.getLast?_singleton, Option.some.injEq] at h
      subst h
      simp
    | cons b t2 =>
      have hs2 := hs.of_cons
      have hlast : (b :: t2).getLast? = some lt := by
        rwa [List.getLast?_cons_cons] at h
      obtain ⟨hf, hle⟩ := ih hs2 hlast
      have hmem : lt ∈ b :: t2 := by
        obtain ⟨hne, rfl⟩ := List.mem_getLast?_eq_getLast (Option.mem_def.mpr hlast)
        exact List.getLast_mem hne
      have halt : a < lt := List.rel_of_sorted_cons hs lt hmem
      constructor
      · rw [List.filter_cons, if_neg (by simp [ne_of_lt halt])]
        exact hf
      · intro x hx
        rcases List.mem_cons.mp hx with rfl | hx2
        · exact le_of_lt halt
        · exact hle x hx2

/-- C4 (amended): `transcode` keeps the *last* stored time value
(`ds.time.values[-1]`); when the time axis is strictly ascending — the
ordering the remote provider actually serves — that is exactly one
sample equal to the maximum along the time axis. -/
theorem c4_latest_time (round32 : ℚ → ℚ) (ds : XDataset) (lt : ℚ)
    (h : ds.time.getLast? = some lt) (hs : ds.time.Sorted (· < ·)) :
    ∃ out, transcode round32 ds = .ok out ∧ out.time = [lt]
      ∧ ∀ x ∈ ds.time, x ≤ lt := by
  obtain ⟨hf, hle⟩ := sorted_getLast_max hs h
  have ht : transcode round32 ds = .ok (downcast round32 (coarsenDS 3
      { ds with
        time := ds.time.filter (fun x => decide (x = lt)),
        uo := { ds.uo with slices := selSlices ds.time lt ds.uo.slices },
        vo := { ds.vo with slices := selSlices ds.time lt ds.vo.slices } })) := by
    simp only [transcode, selectLatest, h]
  exact ⟨_, ht, by simp [downcast, coarsenDS, hf], hle⟩

/-- A dataset whose time axis is stored in descending order. -/
def c4ds : XDataset :=
  { time := [2, 1], timeDtype := .datetime64,
    depth := [0], depthDtype := .float64,
    latitude := [0, 1, 2], latitudeDtype := .float64,
    longitude := [0, 1, 2], longitudeDtype := .float64,
    uo := { dtype := .float64, slices := [[[1]], [[1]]] },
    vo := { dtype := .float64, slices := [[[1]], [[1]]] } }

/-- C4 (counterexample to the claim as stated): with the time axis
stored as `[2, 1]`, `transcode` selects the sample at time `1` — the
*last* value — although `2` is the maximum along the time axis, so the
selected sample is not the maximum for this ordering. -/
theorem c4_counterexample :
    (transcode (fun q => q) c4ds).map XDataset.time = .ok [1]
    ∧ (2 : ℚ) ∈ c4ds.time ∧ (1 : ℚ) < 2 :=
  ⟨rfl, by decide, by norm_num⟩

/-- A dataset whose time axis is strictly ascending. -/
def c4wds : XDataset :=
  { time := [1, 2], timeDtype := .datetime64,
    depth := [0], depthDtype := .float64,
    latitude := [0], latitudeDtype := .float64,
    longitude := [0], longitudeDtype := .float64,
    uo := { dtype := .float64, slices := [[[1]], [[2]]] },
    vo := { dtype := .float64, slices := [[[1]], [[2]]] } }

/-- C4 witness: the amended theorem at a concrete ascending time axis. -/
theorem c4_witness :
    ∃ out, transcode (fun q => q) c4wds = .ok out ∧ out.time = [2]
      ∧ ∀ x ∈ c4wds.time, x ≤ 2 :=
  c4_latest_time (fun q => q) c4wds 2 rfl
    (by simp [c4wds, List.sorted_cons])

/-! ## C5 -/

/-- C5 (counterexample to the claim as stated): for a latitude extent of
100 cells, smaller than the configured chunk size 170, the explicit
encoding chunk tuple built at `subset_zarr.py` lines 98-100 records the
raw configured value 170 — `chunk_sizes.get(d, s)` performs no clipping
to the extent. -/
theorem c5_counterexample :
    encChunks ["time", "depth", "latitude", "longitude"] [1, 1, 100, 240]
      = [1, 1, 170, 240]
    ∧ 100 < 170 := ⟨rfl, by norm_num⟩

/-- C5 (amended): the lazy re-chunk (`ds.chunk(chunk_sizes)`, line 85)
clips each axis's chunk to the axis extent, but the explicit encoding
chunk tuples (lines 98-100) use the raw configured size whenever the
axis is configured — clipped or not — and the full extent for axes not
in the configured map. -/
theorem c5_chunk_clipping (d : String) (s c : ℕ) :
    daskChunkOf d s ≤ s
    ∧ (chunkLookup d = some c → encChunkOf d s = c)
    ∧ (chunkLookup d = none → encChunkOf d s = s) := by
  refine ⟨min_le_right _ _, ?_, ?_⟩ <;> intro h <;> simp [encChunkOf, h]

/-- C5 witness: the amended theorem at the latitude axis with extent
100. -/
theorem c5_witness :
    daskChunkOf "latitude" 100 ≤ 100 ∧ encChunkOf "latitude" 100 = 170 :=
  ⟨(c5_chunk_clipping "latitude" 100 170).1,
   (c5_chunk_clipping "latitude" 100 170).2.1 rfl⟩

/-! ## C6 -/

/-- An empty dataset, used only to instantiate dataset-shaped
statements. -/
def c6ds : XDataset :=
  { time := [], timeDtype := .datetime64, depth := [], depthDtype := .float64,
    latitude := [], latitudeDtype := .float64,
    longitude := [], longitudeDtype := .float64,
    uo := { dtype := .float64, slices := [] },
    vo := { dtype := .float64, slices := [] } }

/-- C6 (confirmed): block-averaging with factor `k` maps an axis of
size `n` to size `n / k` (trailing cells beyond the last full block
dropped), each output cell is the arithmetic mean of its `k`-cell block
(the block really has `k` cells), a 2041-cell latitude axis with factor
3 yields 680 cells, the row `[1, 2, 3]` with factor 3 yields the single
cell `2`, and the dataset-level coarsen applies exactly this operator to
the latitude and longitude axes. -/
theorem c6_block_average (k : ℕ) (xs : List ℚ) (ds : XDataset) :
    (coarsen1D k xs).length = xs.length / k
    ∧ (∀ i, i < xs.length / k →
        (coarsen1D k xs)[i]? = some (((xs.drop (i * k)).take k).sum / (k : ℚ))
        ∧ ((xs.drop (i * k)).take k).length = k)
    ∧ (xs.length = 2041 → k = 3 → (coarsen1D k xs).length = 680)
    ∧ coarsen1D 3 [1, 2, 3] = [2]
    ∧ (coarsenDS k ds).latitude = coarsen1D k ds.latitude
    ∧ (coarsenDS k ds).longitude = coarsen1D k ds.longitude := by
  have hlen : (coarsen1D k xs).length = xs.length / k := by simp [coarsen1D]
  refine ⟨hlen, ?_, ?_, ?_, rfl, rfl⟩
  · intro i hi
    have hk : 0 < k := by
      rcases Nat.eq_zero_or_pos k with rfl | hk
      · simp at hi
      · exact hk
    have hik : (i + 1) * k ≤ xs.length :=
      le_trans (mul_le_mul_right' hi k) (Nat.div_mul_le_self _ _)
    have hik2 : k + i * k ≤ xs.length := by
      calc k + i * k = (i + 1) * k := by ring
        _ ≤ xs.length := hik
    constructor
    · simp [coarsen1D, List.getElem?_map, List.getElem?_range, hi]
    · rw [List.length_take, List.length_drop]
      exact min_eq_left (Nat.le_sub_of_add_le hik2)
  · intro h2041 h3
    rw [hlen, h2041, h3]
  · norm_num [coarsen1D, List.range, List.range.loop]

/-- C6 witness: the theorem at factor 3 on the concrete row
`[1, 2, 3]`, with the inner block property instantiated at the first
block. -/
theorem c6_witness :
    (coarsen1D 3 ([1, 2, 3] : List ℚ)).length = ([1, 2, 3] : List ℚ).length / 3
    ∧ coarsen1D 3 [1, 2, 3] = [2]
    ∧ ((([1, 2, 3] : List ℚ).drop (0 * 3)).take 3).length = 3 :=
  ⟨(c6_block_average 3 [1, 2, 3] c6ds).1,
   (c6_block_average 3 [1, 2, 3] c6ds).2.2.2.1,
   ((c6_block_average 3 [1, 2, 3] c6ds).2.1 0 (by decide)).2⟩

/-! ## C8 -/

/-- C8 (confirmed): after the downcast stage both data variables and the
latitude, longitude and depth coordinate arrays carry the float32 dtype
while the time coordinate's dtype is whatever it was on input, and the
data reaching the downcast is the already block-averaged data — the
output slices are the rounding image of the coarsened original-precision
values, and likewise for the latitude coordinate. -/
theorem c8_downcast_order (round32 : ℚ → ℚ) (ds : XDataset) (lt : ℚ)
    (h : ds.time.getLast? = some lt) :
    ∃ out, transcode round32 ds = .ok out
      ∧ out.uo.dtype = .float32 ∧ out.vo.dtype = .float32
      ∧ out.latitudeDtype = .float32 ∧ out.longitudeDtype = .float32
      ∧ out.depthDtype = .float32 ∧ out.timeDtype = ds.timeDtype
      ∧ out.uo.slices = ((selSlices ds.time lt ds.uo.slices).map (coarsen2D 3)).map
          (fun g => g.map (fun row => row.map round32))
      ∧ out.latitude = (coarsen1D 3 ds.latitude).map round32 := by
  have ht : transcode round32 ds = .ok (downcast round32 (coarsenDS 3
      { ds with
        time := ds.time.filter (fun x => decide (x = lt)),
        uo := { ds.uo with slices := selSlices ds.time lt ds.uo.slices },
        vo := { ds.vo with slices := selSlices ds.time lt ds.vo.slices } })) := by
    simp only [transcode, selectLatest, h]
  refine ⟨_, ht, ?_, ?_, ?_, ?_, ?_, ?_, ?_, ?_⟩
  all_goals simp [downcast, coarsenDS]

/-- A one-timestep dataset with a 3 × 3 grid. -/
def c8wds : XDataset :=
  { time := [5], timeDtype := .datetime64,
    depth := [0], depthDtype := .float64,
    latitude := [10, 11, 12], latitudeDtype := .float64,
    longitude := [20, 21, 22], longitudeDtype := .float64,
    uo := { dtype := .float64, slices := [[[1, 2, 3], [4, 5, 6], [7, 8, 9]]] },
    vo := { dtype := .float64, slices := [[[1, 2, 3], [4, 5, 6], [7, 8, 9]]] } }

/-- C8 witness: the theorem at the concrete one-timestep dataset. -/
theorem c8_witness :
    ∃ out, transcode (fun q => q) c8wds = .ok out
      ∧ out.uo.dtype = .float32 ∧ out.vo.dtype = .float32
      ∧ out.latitudeDtype = .float32 ∧ out.longitudeDtype = .float32
      ∧ out.depthDtype = .float32 ∧ out.timeDtype = c8wds.timeDtype
      ∧ out.uo.slices = ((selSlices c8wds.time 5 c8wds.uo.slices).map (coarsen2D 3)).map
          (fun g => g.map (fun row => row.map (fun q => q)))
      ∧ out.latitude = (coarsen1D 3 c8wds.latitude).map (fun q => q) :=
  c8_downcast_order (fun q => q) c8wds 5 rfl

end Zartigl
